import Mathlib

/-!
Verification of `configurationlib` (kokofixcomputers/configurationlib).

A shallow embedding of `configurationlib/configurationlib.py` — a small
multi-format configuration store (class `Instance`) — together with proofs
about its data-access, persistence and hot-reload behaviour.

Modelling conventions:
* Python values appearing in configuration documents are modelled by the
  recursive type `ConfigValue` (strings, integers, booleans, `None`, lists,
  and insertion-ordered string-keyed dicts as association lists).
* Python dicts are association lists with first-match lookup; assignment to
  an existing key replaces in place, a new key is appended — this matches
  the CPython insertion-order semantics observably.
* External library calls (`json`, `yaml`, `toml`, `configparser`,
  `str()`/`repr()` formatting) are collaborators outside this repository;
  they are abstracted as fields of an `Ext` structure. All logic of the
  repository itself (dispatch, the ENV codec, dotted-path get/set, the
  monitor loop body) is embedded concretely.
* Exceptions are modelled by `Except` / `Option PyExn`; mutation of `self`
  and of the file system is explicit state passing.
-/

set_option autoImplicit false

namespace Configurationlib

/-- A Python value as it can occur in a configuration document:
string, integer number, boolean, `None`, list, or string-keyed dict
(association list, insertion ordered). -/
inductive ConfigValue where
  | str (s : String)
  | num (n : Int)
  | bool (b : Bool)
  | null
  | list (xs : List ConfigValue)
  | map (d : List (String × ConfigValue))

/-- A `Document`: the root mapping of a configuration (a Python dict). -/
abbrev Doc := List (String × ConfigValue)

/-- Python dict lookup `d[k]` / `d.get(k)`: first binding whose key equals `k`. -/
def dictGet {α : Type} : List (String × α) → String → Option α
  | [], _ => none
  | (k', v) :: d, k => if k' = k then some v else dictGet d k

/-- Python dict assignment `d[k] = v`: replaces the value at an existing
key in place, otherwise appends the new binding at the end (the CPython
insertion-order behaviour). -/
def dictSet {α : Type} : List (String × α) → String → α → List (String × α)
  | [], k, v => [(k, v)]
  | (k1, v1) :: d, k, v =>
    if k1 = k then (k, v) :: d else (k1, v1) :: dictSet d k v

/-- Embedding of `Instance.get(*keys)` (configurationlib.py lines 146–167):
with no keys it returns `self.config`; otherwise it walks the keys, and at
each step requires the current value to be a dict containing the key,
returning Python `None` (here `.null`) as soon as that fails. The Python
`None` object and a stored JSON `null` are the same value, so both are
`.null` here. -/
def Instance.get (config : ConfigValue) : List String → ConfigValue
  | [] => config
  | k :: ks =>
    match config with
    | .map d =>
      match dictGet d k with
      | some v => Instance.get v ks
      | none => .null
    | _ => .null

/-- Python exceptions that the embedded code can raise. Constructors stand
for the Python exception classes that escape the corresponding operations:
`json.JSONDecodeError`, `yaml.YAMLError`, `toml.TomlDecodeError`,
`configparser` errors, `ValueError` (with message), `AttributeError`,
`TypeError`, and an arbitrary exception from executing a PYTHON-format
script. -/
inductive PyExn where
  | jsonDecodeError (msg : String)
  | yamlError (msg : String)
  | tomlDecodeError (msg : String)
  | configParserError (msg : String)
  | valueError (msg : String)
  | attributeError
  | typeError
  | pythonExecError (msg : String)
deriving DecidableEq, Repr

/-- Python `s.split(sep)` for a one-character separator, on the character
list: every occurrence of `sep` ends a chunk, so `n` separators yield
`n + 1` chunks (the empty string splits into one empty chunk). -/
def splitCharAux (sep : Char) : List Char → List (List Char)
  | [] => [[]]
  | c :: cs =>
    if c = sep then [] :: splitCharAux sep cs
    else
      match splitCharAux sep cs with
      | [] => [[c]]
      | g :: gs => (c :: g) :: gs

/-- Python `s.split(sep)` for a one-character separator (`key.split(".")`
in `__setitem__` / `__getitem__`, and the line structure of a file for the
ENV loader). -/
def pySplitChar (sep : Char) (s : String) : List String :=
  (splitCharAux sep s.toList).map List.asString

/-- One step of the loop of `Instance.__getitem__`: `current_level.get(k)`.
Only a dict has a `.get` method; on any other value (including `None`
obtained from a previous missing key) Python raises `AttributeError`. -/
def getitemStep (v : ConfigValue) (k : String) : Except PyExn ConfigValue :=
  match v with
  | .map d => .ok ((dictGet d k).getD .null)
  | _ => .error .attributeError

/-- Embedding of `Instance.__getitem__(key)` (lines 185–195): splits `key`
on `"."` and chains `current_level = current_level.get(k)` over the
segments. -/
def Instance.getitem (config : ConfigValue) (key : String) :
    Except PyExn ConfigValue :=
  (pySplitChar '.' key).foldlM getitemStep config

/-- The dict descended into at an intermediate segment of
`Instance.__setitem__` (lines 176–179): the existing dict at `k`, or a
fresh empty dict when `k` is absent or its current value is not a dict
(the destructive overwrite of line 178). -/
def setChild (d : Doc) (k : String) : Doc :=
  match dictGet d k with
  | some (.map d') => d'
  | _ => []

/-- The descent-and-assign core of `Instance.__setitem__` (lines 169–183),
on the split key list (head segment `k`, remaining segments `ks`): for each
segment except the last, descend via `setChild`; assign `v` at the final
segment. -/
def setPath (d : Doc) (k : String) (ks : List String) (v : ConfigValue) :
    Doc :=
  match ks with
  | [] => dictSet d k v
  | k2 :: rest => dictSet d k (.map (setPath (setChild d k) k2 rest v))

/-- The in-memory effect of `Instance.__setitem__(key, value)` on a dict
root: split on `"."` (always at least one segment), then `setPath`. (The
save side effect is modelled separately in `setitemRun`.) -/
def setitemPure (d : Doc) (key : String) (v : ConfigValue) : Doc :=
  match pySplitChar '.' key with
  | [] => d
  | k :: ks => setPath d k ks v

/-! ## The ENV codec (`Instance.load_env`, lines 90–97) — repository code. -/

/-- Python `str.strip()` whitespace set (ASCII part). -/
def isPyWs (c : Char) : Bool :=
  c = ' ' || c = '\t' || c = '\n' || c = '\r' || c = '\x0b' || c = '\x0c'

/-- Python `line.strip()`. -/
def pyStrip (s : String) : String :=
  (((s.toList.dropWhile isPyWs).reverse.dropWhile isPyWs).reverse).asString

/-- Python `line.startswith("#")` — on the raw, unstripped line. -/
def startsWithHash (s : String) : Bool :=
  match s.toList with
  | '#' :: _ => true
  | _ => false

/-- Python `s.split("=", 1)` when it must unpack into exactly two parts:
`some (before, after)` splits at the first `'='`; `none` models the
`ValueError: not enough values to unpack` raised when there is no `'='`.
(`split("=", 1)` always yields one or two parts, and one part only when
`'='` is absent.) -/
def splitFirstEqAux : List Char → Option (List Char × List Char)
  | [] => none
  | c :: cs =>
    if c = '=' then some ([], cs)
    else (splitFirstEqAux cs).map (fun p => (c :: p.1, p.2))

/-- String version of `splitFirstEqAux`. -/
def splitFirstEq (s : String) : Option (String × String) :=
  (splitFirstEqAux s.toList).map (fun p => (p.1.asString, p.2.asString))

/-- The condition under which `Instance.load_env` processes a line:
`line.strip() and not line.startswith("#")` — note the `startswith` check
is on the raw, unstripped line. -/
def envProcessed (line : String) : Prop :=
  pyStrip line ≠ "" ∧ ¬ startsWithHash line

instance (line : String) : Decidable (envProcessed line) := by
  unfold envProcessed
  infer_instance

/-- Embedding of `Instance.load_env(f)` on the lines of the file: skips
lines that are blank after stripping or whose raw text starts with `#`;
every other line is stripped and split on its first `'='` into key and
value (a line without `'='` raises `ValueError`); bindings accumulate into
a dict, later duplicates overwriting earlier ones. -/
def load_env : List String → Doc → Except PyExn Doc
  | [], config => .ok config
  | line :: rest, config =>
    if envProcessed line then
      match splitFirstEq (pyStrip line) with
      | some (k, v) => load_env rest (dictSet config k (.str v))
      | none =>
        .error (.valueError "not enough values to unpack (expected 2, got 1)")
    else
      load_env rest config

/-! ## External collaborators

The repository delegates parsing/serialisation of JSON, YAML, TOML and INI
to the `json`, `yaml`, `toml` and `configparser` libraries, executes
PYTHON-format files via `importlib`, and formats values with the Python
`str()` / `repr()` builtins. These are not code of this repository; they are
abstracted as an `Ext` record of pure functions (a parse returning
`Except` models the library raising its exception). -/

structure Ext where
  /-- Python `json.load` — raises `json.JSONDecodeError` on malformed input. -/
  jsonLoad : String → Except String ConfigValue
  /-- Python `json.dump(config, f, indent=4)` as the written text. -/
  jsonDump : ConfigValue → String
  /-- Python `yaml.safe_load` — raises `yaml.YAMLError` on malformed input. -/
  yamlLoad : String → Except String ConfigValue
  /-- Python `yaml.dump(config, f)` as the written text. -/
  yamlDump : ConfigValue → String
  /-- Python `toml.load` — raises `toml.TomlDecodeError` on malformed input. -/
  tomlLoad : String → Except String ConfigValue
  /-- Python `toml.dump(config, f)` as the written text. -/
  tomlDump : ConfigValue → String
  /-- Python `configparser.ConfigParser.read_file` plus `sections()`/`items()`:
  the parsed sections, each a list of key/value string pairs. -/
  iniParse : String → Except String (List (String × List (String × String)))
  /-- Python `configparser.ConfigParser.write(f)` as the written text. -/
  iniDump : List (String × List (String × String)) → String
  /-- The effect of `Instance.load_python`: executing the file as a module and harvesting
  its non-dunder top-level identifiers (external: `importlib` + `exec`). -/
  pythonLoad : String → Except String ConfigValue
  /-- Python `str(value)` (used by the ENV and INI writers). -/
  pyStr : ConfigValue → String
  /-- Python `repr(value)` (used by the PYTHON writer). -/
  pyRepr : ConfigValue → String

/-! ## Instance state and the file system -/

/-- Python `format.upper()` (ASCII range, as used by the format
identifiers), reducibly: uppercase each character. -/
def pyUpper (s : String) : String :=
  (s.toList.map Char.toUpper).asString

/-- The single configuration file an `Instance` is bound to: its content
when it exists (`none` = `os.path.exists` is false) and its modification
timestamp as returned by `os.path.getmtime`. -/
structure FS where
  file : Option String
  mtime : Nat

/-- The mutable attributes of an `Instance` relevant to its behaviour:
`self.config`, `self.format` (already uppercased), `self.last_modified_time`,
and the two constructor flags. -/
structure InstanceState where
  config : ConfigValue
  format : String
  last_modified_time : Nat
  hot_reloading : Bool
  debug : Bool

/-- Embedding of `Instance.load()` (lines 45–67). If the file exists, `self.last_modified_time`
is updated to the mtime of the file FIRST, then the file is opened and parsing is
dispatched on `self.format`; a parse failure (or the `ValueError` for an
unrecognized format) escapes after that timestamp update, leaving
`self.config` untouched. If the file does not exist, `self.config` becomes
an empty dict and the timestamp is not touched. The result is the
post-call state together with the escaped exception, if any. -/
def loadRun (ext : Ext) (fs : FS) (st : InstanceState) :
    InstanceState × Option PyExn :=
  match fs.file with
  | none => ({ st with config := .map [] }, none)
  | some content =>
    let st1 := { st with last_modified_time := fs.mtime }
    match st1.format with
    | "JSON" =>
      match ext.jsonLoad content with
      | .ok v => ({ st1 with config := v }, none)
      | .error m => (st1, some (.jsonDecodeError m))
    | "YAML" =>
      match ext.yamlLoad content with
      | .ok v => ({ st1 with config := v }, none)
      | .error m => (st1, some (.yamlError m))
    | "ENV" =>
      match load_env (pySplitChar '\n' content) [] with
      | .ok d => ({ st1 with config := .map d }, none)
      | .error e => (st1, some e)
    | "PYTHON" =>
      match ext.pythonLoad content with
      | .ok v => ({ st1 with config := v }, none)
      | .error m => (st1, some (.pythonExecError m))
    | "INI" =>
      match ext.iniParse content with
      | .ok secs =>
        ({ st1 with config := .map (secs.map (fun p =>
            (p.1, ConfigValue.map (p.2.map (fun q =>
              (q.1, ConfigValue.str q.2)))))) }, none)
      | .error m => (st1, some (.configParserError m))
    | "TOML" =>
      match ext.tomlLoad content with
      | .ok v => ({ st1 with config := v }, none)
      | .error m => (st1, some (.tomlDecodeError m))
    | fmt => (st1, some (.valueError ("Unsupported format: " ++ fmt)))

/-- Embedding of `Instance.__init__(file, format, hot_reloading, debug)`
(lines 11–21):
sets `config = {}`, uppercases the format, `last_modified_time = 0`, then
calls `load()`. Any exception from that load escapes the constructor
(construction fails); the watcher thread would be started only after a
successful load. -/
def initRun (ext : Ext) (fs : FS) (format : String)
    (hot_reloading debug : Bool) : InstanceState × Option PyExn :=
  let st : InstanceState :=
    { config := .map [], format := pyUpper format, last_modified_time := 0,
      hot_reloading := hot_reloading, debug := debug }
  loadRun ext fs st

/-- The per-section step of the INI writer conversion (lines 126–134): a dict value
becomes its items with values converted with `str()`; a bare non-dict value is
written under a key named after the section itself. -/
def iniSection (ext : Ext) (sec : String) (v : ConfigValue) :
    List (String × String) :=
  match v with
  | .map d => d.map (fun p => (p.1, ext.pyStr p.2))
  | _ => [(sec, ext.pyStr v)]

/-- The text `Instance.save()` (lines 108–144) writes for the current
format and config, or the exception its dispatch raises: the ENV and
PYTHON writers iterate `self.config.items()` (an `AttributeError` if the
config is not a dict), the INI writer builds string-valued sections, and
an unrecognized format raises `ValueError` — after the file was already
opened for writing (truncated). -/
def formatDump (ext : Ext) (fmt : String) (v : ConfigValue) :
    Except PyExn String :=
  match fmt with
  | "JSON" => .ok (ext.jsonDump v)
  | "YAML" => .ok (ext.yamlDump v)
  | "ENV" =>
    match v with
    | .map d =>
      .ok (String.join (d.map (fun p => p.1 ++ "=" ++ ext.pyStr p.2 ++ "\n")))
    | _ => .error .attributeError
  | "PYTHON" =>
    match v with
    | .map d =>
      .ok (String.join (d.map (fun p =>
        p.1 ++ " = " ++ ext.pyRepr p.2 ++ "\n")))
    | _ => .error .attributeError
  | "INI" =>
    match v with
    | .map d => .ok (ext.iniDump (d.map (fun p => (p.1, iniSection ext p.1 p.2))))
    | _ => .error .attributeError
  | "TOML" => .ok (ext.tomlDump v)
  | f => .error (.valueError ("Unsupported format: " ++ f))

/-- Embedding of `Instance.save()` as a file-system transformation: `open(self.file, "w")`
truncates the file first, then the format dispatch writes the serialized
document (on an exception the file is left truncated and the exception
escapes). On success the whole file is replaced by the serialization.
(The OS refreshes the mtime of the file on write; the mtime field is not read
again by any code path modelled here, so it is left as an opaque value.) -/
def saveRun (ext : Ext) (st : InstanceState) (fs : FS) : FS × Option PyExn :=
  match formatDump ext st.format st.config with
  | .ok content => ({ fs with file := some content }, none)
  | .error e => ({ fs with file := some "" }, some e)

/-- Embedding of `Instance.__setitem__(key, value)` with its save side effect
(lines 169–183): mutate the config via the dotted-path descent, then
`self.save()`. A non-dict root config raises a `TypeError` before any
mutation (Python cannot descend into it). -/
def setitemRun (ext : Ext) (st : InstanceState) (fs : FS)
    (key : String) (v : ConfigValue) : InstanceState × FS × Option PyExn :=
  match st.config with
  | .map d =>
    let st1 := { st with config := .map (setitemPure d key v) }
    let r := saveRun ext st1 fs
    (st1, r.1, r.2)
  | _ => (st, fs, some .typeError)

/-- One iteration of the watcher `monitor()` loop body
(`Instance.start_hot_reloading`, lines 27–43), after the 1-second sleep,
against a snapshot `fs` of the file system: if the file exists and its
mtime differs from `self.last_modified_time`, call `self.load()` and then
record the new mtime. The loop body has no exception handler, so an
exception raised by `load()` terminates the daemon thread: the returned
`Bool` is `true` iff the loop is still running afterwards. Nothing is ever
propagated to the foreground thread. -/
def monitorStep (ext : Ext) (fs : FS) (st : InstanceState) :
    InstanceState × Bool :=
  match fs.file with
  | none => (st, true)
  | some _ =>
    if fs.mtime ≠ st.last_modified_time then
      match loadRun ext fs st with
      | (st', none) => ({ st' with last_modified_time := fs.mtime }, true)
      | (st', some _) => (st', false)
    else
      (st, true)

/-! ## Reference semantics for the no-argument `get()`

`Instance.get()` with no keys executes `return self.config`: it hands the
caller the very dict object the instance holds, not a copy. To make that
aliasing observable we refine the root of the document to a heap address:
the instance stores an address, `get()` returns that address, and a
mutation performed through any address updates the heap. -/

/-- An `Instance` whose root document lives behind a heap address:
`heap` maps addresses to Python objects, `configAddr` is the address stored
in `self.config`, and `fileContent` is the bound file. -/
structure HeapState where
  heap : Nat → ConfigValue
  configAddr : Nat
  fileContent : Option String

/-- The no-argument `Instance.get()` (line 158: `return self.config`): no
side effect, and the returned reference is the stored address itself — a
copying implementation would allocate a fresh address instead. -/
def getNoArg (s : HeapState) : HeapState × Nat :=
  (s, s.configAddr)

/-- A caller-side mutation `m[k] = v` through a reference `r` to a dict
object (such as the mapping returned by `get()`): updates the object at
address `r`; nothing else — in particular no file write — happens. -/
def mutateThroughRef (s : HeapState) (r : Nat) (k : String)
    (v : ConfigValue) : HeapState :=
  { s with heap := fun a =>
      if a = r then
        match s.heap a with
        | .map d => .map (dictSet d k v)
        | w => w
      else s.heap a }

/-- A subsequent `Instance.get(*keys)` on the same instance: dereference
`self.config` and walk the keys. -/
def readGet (s : HeapState) (keys : List String) : ConfigValue :=
  Instance.get (s.heap s.configAddr) keys

/-! ## Spec-side definitions (for comparison against the embedding) -/

/-- Modelled from the spec error taxonomy (a FormatError "identifies the
format"): the format, if any, that a raised exception class names. The
library parse errors are format specific; a bare `ValueError`,
`AttributeError` or `TypeError` is the generic Python class and names no
format. -/
def pyExnFormat : PyExn → Option String
  | .jsonDecodeError _ => some "JSON"
  | .yamlError _ => some "YAML"
  | .tomlDecodeError _ => some "TOML"
  | .configParserError _ => some "INI"
  | .valueError _ => none
  | .attributeError => none
  | .typeError => none
  | .pythonExecError _ => none

/-- One line of the map described by the ENV claim: a processed line is
split at its first `'='` into a binding (a line with no `'='` is skipped —
under the claimed precondition that case never occurs). -/
def envStep (acc : Doc) (line : String) : Doc :=
  if envProcessed line then
    match splitFirstEq (pyStrip line) with
    | some p => dictSet acc p.1 (.str p.2)
    | none => acc
  else acc

/-- Modelled from the claim on ENV parsing: "the map built by splitting
each such line on its first `=`" — a total fold of `envStep` over the
lines. -/
def envSpecMap (lines : List String) : Doc :=
  lines.foldl envStep []

/-- The parse half of the codec the load dispatch uses for a structural
format, as a function of the format name (used to state the round-trip
property; matches the corresponding branches of `loadRun`). -/
def formatParse (ext : Ext) (fmt : String) (content : String) :
    Except String ConfigValue :=
  match fmt with
  | "JSON" => ext.jsonLoad content
  | "YAML" => ext.yamlLoad content
  | "TOML" => ext.tomlLoad content
  | _ => .error "unsupported"

/-! ## A concrete external-library instantiation

Used by the witness and counterexample theorems: a small computable stand-in
for the external codecs, with a JSON codec that round-trips the document
used by the witnesses. -/

/-- The document used by the concrete witnesses. -/
def docW : ConfigValue := .map [("key", .str "value")]

/-- A concrete `Ext`: the JSON codec recognises exactly the serialization
of `docW` and fails on everything else (as `json.load` fails on
non-JSON text); the remaining codecs are simple total functions. -/
def extC : Ext where
  jsonLoad := fun s =>
    if s = "KEYVALUEJSON" then .ok docW
    else .error "Expecting value: line 1 column 1 (char 0)"
  jsonDump := fun _ => "KEYVALUEJSON"
  yamlLoad := fun _ => .ok .null
  yamlDump := fun _ => ""
  tomlLoad := fun _ => .ok (.map [])
  tomlDump := fun _ => ""
  iniParse := fun _ => .error "File contains no section headers."
  iniDump := fun _ => ""
  pythonLoad := fun _ => .error "SyntaxError: invalid syntax"
  pyStr := fun v =>
    match v with
    | .str s => s
    | _ => ""
  pyRepr := fun _ => ""

/-! ## Helper lemmas about dict operations -/

/-- After `d[k] = v`, looking up `k` finds `v`. -/
theorem dictGet_dictSet_self {α : Type} (d : List (String × α)) (k : String)
    (v : α) : dictGet (dictSet d k v) k = some v := by
  induction d with
  | nil => simp [dictSet, dictGet]
  | cons p rest ih =>
    rcases p with ⟨k1, v1⟩
    by_cases hk : k1 = k
    · simp [dictSet, dictGet, hk]
    · simp [dictSet, dictGet, hk, ih]

/-! ## Helper lemmas about the dotted-path set -/

/-- Getting back the full path just set returns the assigned value. -/
theorem get_setPath (v : ConfigValue) :
    ∀ (ks : List String) (k : String) (d : Doc),
      Instance.get (.map (setPath d k ks v)) (k :: ks) = v := by
  intro ks
  induction ks with
  | nil =>
    intro k d
    simp [setPath, Instance.get, dictGet_dictSet_self]
  | cons k2 rest ih =>
    intro k d
    simp only [setPath, Instance.get, dictGet_dictSet_self]
    exact ih k2 (setChild d k)

/-- Getting the parent of the path just set returns a dict that contains
the final segment, bound to the assigned value. -/
theorem get_setPath_parent (v : ConfigValue) :
    ∀ (ks : List String) (k : String) (d : Doc),
      ∃ d2,
        Instance.get (.map (setPath d k ks v)) ((k :: ks).dropLast) =
          .map d2 ∧
        dictGet d2 ((k :: ks).getLast (List.cons_ne_nil k ks)) = some v := by
  intro ks
  induction ks with
  | nil =>
    intro k d
    refine ⟨dictSet d k v, ?_, ?_⟩
    · simp [setPath, Instance.get]
    · simp [List.getLast, dictGet_dictSet_self]
  | cons k2 rest ih =>
    intro k d
    obtain ⟨d2, h1, h2⟩ := ih k2 (setChild d k)
    refine ⟨d2, ?_, ?_⟩
    · simpa [setPath, Instance.get, dictGet_dictSet_self] using h1
    · simpa [List.getLast] using h2

/-! ## Helper lemmas about the variadic get and about load -/

/-- If the value reached after the prefix `ks1` is not a dict containing
`k` — because some earlier segment already failed, because it is a scalar
or list, or because `k` is missing — then the variadic get of any longer
path through `k` returns `None`. -/
theorem get_append_null :
    ∀ (ks1 : List String) (v : ConfigValue) (k : String) (ks2 : List String),
      (∀ d x, Instance.get v ks1 = .map d → dictGet d k ≠ some x) →
      Instance.get v (ks1 ++ k :: ks2) = .null := by
  intro ks1
  induction ks1 with
  | nil =>
    intro v k ks2 h
    cases v with
    | map d =>
      cases hdk : dictGet d k with
      | none => simp [Instance.get, hdk]
      | some x => exact absurd hdk (h d x rfl)
    | str s => simp [Instance.get]
    | num n => simp [Instance.get]
    | bool b => simp [Instance.get]
    | null => simp [Instance.get]
    | list xs => simp [Instance.get]
  | cons k1 rest ih =>
    intro v k ks2 h
    cases v with
    | map d =>
      cases hdk : dictGet d k1 with
      | none => simp [Instance.get, hdk]
      | some w =>
        have hw : ∀ d2 x, Instance.get w rest = .map d2 →
            dictGet d2 k ≠ some x := by
          intro d2 x hg
          exact h d2 x (by simp [Instance.get, hdk, hg])
        simpa [Instance.get, hdk] using ih w k ks2 hw
    | str s => simp [Instance.get]
    | num n => simp [Instance.get]
    | bool b => simp [Instance.get]
    | null => simp [Instance.get]
    | list xs => simp [Instance.get]

/-- When `load()` raises (any parse failure, or the unsupported-format
`ValueError`), the post-call state is the original one with only the
last-modified timestamp already overwritten by the mtime of the file — the
config is untouched. -/
theorem loadRun_error_state (ext : Ext) (fs : FS) (st : InstanceState)
    (content : String) (hfile : fs.file = some content) :
    ∀ st1 e, loadRun ext fs st = (st1, some e) →
      st1 = { st with last_modified_time := fs.mtime } := by
  intro st1 e h
  unfold loadRun at h
  rw [hfile] at h
  dsimp only at h
  split at h
  · split at h <;> simp_all
  · split at h <;> simp_all
  · split at h <;> simp_all
  · split at h <;> simp_all
  · split at h <;> simp_all
  · split at h <;> simp_all
  · simp_all

/-! ## Helper lemmas about the ENV codec -/

/-- Splitting at the first `'='` fails exactly when there is no `'='`. -/
theorem splitFirstEqAux_eq_none_iff :
    ∀ cs : List Char, splitFirstEqAux cs = none ↔ '=' ∉ cs := by
  intro cs
  induction cs with
  | nil => simp [splitFirstEqAux]
  | cons c rest ih =>
    by_cases hc : c = '='
    · subst hc
      simp [splitFirstEqAux]
    · simp only [splitFirstEqAux, hc, if_false, List.mem_cons]
      cases hr : splitFirstEqAux rest with
      | none =>
        have hnr : '=' ∉ rest := ih.mp hr
        simp [Ne.symm hc, hnr]
      | some p =>
        have hmem : '=' ∈ rest := by
          by_contra hno
          rw [← ih] at hno
          rw [hr] at hno
          cases hno
        simp [hmem]

theorem splitFirstEq_eq_none_iff (s : String) :
    splitFirstEq s = none ↔ '=' ∉ s.toList := by
  unfold splitFirstEq
  cases h : splitFirstEqAux s.toList with
  | none =>
    exact iff_of_true rfl ((splitFirstEqAux_eq_none_iff _).mp h)
  | some p =>
    apply iff_of_false
    · simp
    · intro hno
      rw [← splitFirstEqAux_eq_none_iff] at hno
      rw [h] at hno
      cases hno

/-- A processed line without `'='` anywhere in the input makes
`load_env` raise the unpack `ValueError`, whatever came before it. -/
theorem load_env_error :
    ∀ (lines : List String) (acc : Doc),
      (∃ l ∈ lines, envProcessed l ∧ '=' ∉ (pyStrip l).toList) →
      load_env lines acc =
        .error (.valueError "not enough values to unpack (expected 2, got 1)") := by
  intro lines
  induction lines with
  | nil =>
    intro acc h
    rcases h with ⟨l, hl, _⟩
    cases hl
  | cons line rest ih =>
    intro acc h
    by_cases hp : envProcessed line
    · cases hs : splitFirstEq (pyStrip line) with
      | none => simp [load_env, hp, hs]
      | some p =>
        have hbad : ∃ l ∈ rest, envProcessed l ∧ '=' ∉ (pyStrip l).toList := by
          rcases h with ⟨l, hl, hpl, he⟩
          rcases List.mem_cons.mp hl with rfl | hmem
          · exfalso
            rw [← splitFirstEq_eq_none_iff] at he
            rw [hs] at he
            cases he
          · exact ⟨l, hmem, hpl, he⟩
        simpa [load_env, hp, hs] using ih _ hbad
    · have hbad : ∃ l ∈ rest, envProcessed l ∧ '=' ∉ (pyStrip l).toList := by
        rcases h with ⟨l, hl, hpl, he⟩
        rcases List.mem_cons.mp hl with rfl | hmem
        · exact absurd hpl hp
        · exact ⟨l, hmem, hpl, he⟩
      simpa [load_env, hp] using ih _ hbad

/-- When every processed line has an `'='`, `load_env` succeeds and builds
exactly the fold of `envStep`. -/
theorem load_env_ok :
    ∀ (lines : List String) (acc : Doc),
      (∀ l ∈ lines, envProcessed l → '=' ∈ (pyStrip l).toList) →
      load_env lines acc = .ok (lines.foldl envStep acc) := by
  intro lines
  induction lines with
  | nil =>
    intro acc h
    rfl
  | cons line rest ih =>
    intro acc h
    have hrest : ∀ l ∈ rest, envProcessed l → '=' ∈ (pyStrip l).toList :=
      fun l hl => h l (List.mem_cons_of_mem _ hl)
    by_cases hp : envProcessed line
    · have he : '=' ∈ (pyStrip line).toList := h line (List.mem_cons_self _ _) hp
      cases hs : splitFirstEq (pyStrip line) with
      | none =>
        rw [splitFirstEq_eq_none_iff] at hs
        exact absurd he hs
      | some p =>
        simpa [load_env, envStep, hp, hs] using ih _ hrest
    · simpa [load_env, envStep, hp] using ih _ hrest

/-! ## Claim theorems -/

/-- C5: for every Document `d` and dotted path `key` (split into its
segments `k :: ks`), `set` descends segment by segment — replacing an
absent or non-dict intermediate with a fresh empty dict — and assigns `v`
at the final segment; afterwards the variadic `get` on the full segment
list returns `v`, and `get` on the parent segment list returns a dict
containing the final segment bound to `v`. -/
theorem C5_set_then_get (d : Doc) (key : String) (v : ConfigValue)
    (k : String) (ks : List String) (hsplit : pySplitChar '.' key = k :: ks) :
    Instance.get (.map (setitemPure d key v)) (k :: ks) = v ∧
    ∃ d2,
      Instance.get (.map (setitemPure d key v)) ((k :: ks).dropLast) =
        .map d2 ∧
      dictGet d2 ((k :: ks).getLast (List.cons_ne_nil k ks)) = some v := by
  have hpure : setitemPure d key v = setPath d k ks v := by
    unfold setitemPure
    rw [hsplit]
  rw [hpure]
  exact ⟨get_setPath v ks k d, get_setPath_parent v ks k d⟩

/-- Witness for C5 at a concrete input: `set("a.b.c", 7)` on the empty
Document, then `get("a","b","c")` and `get("a","b")`. -/
theorem C5_set_then_get_witness :
    (pySplitChar '.' "a.b.c" = ["a", "b", "c"]) ∧
    (Instance.get (.map (setitemPure [] "a.b.c" (.num 7)))
        ["a", "b", "c"] = .num 7 ∧
     ∃ d2,
       Instance.get (.map (setitemPure [] "a.b.c" (.num 7)))
           (["a", "b", "c"].dropLast) = .map d2 ∧
       dictGet d2 (["a", "b", "c"].getLast
           (List.cons_ne_nil "a" ["b", "c"])) = some (.num 7)) :=
  ⟨by decide, C5_set_then_get [] "a.b.c" (.num 7) "a" ["b", "c"] (by decide)⟩

/-- C2 counterexample: the claim also asserts the dotted-path
(bracket-indexing) form never throws, but on the empty Document
`inst["a.b"]` evaluates `None.get("b")` and raises `AttributeError`. -/
theorem C2_counterexample :
    Instance.getitem (.map []) "a.b" = .error .attributeError := by
  rfl

/-- C2 amended: the variadic `get` never throws and returns `None` whenever
some step of the walk meets a value that is not a dict containing the next
key; the bracket form shares that null-on-miss policy only at the final
segment — whenever the value reached after a proper prefix of the segments
is not a dict (a missing intermediate key yields `None` from `.get`, a
non-dict intermediate is the value itself), the next `.get` call raises
`AttributeError`; and when every intermediate traversal stays in a dict,
the bracket lookup returns without error, producing `None` exactly when
the final segment is missing. -/
theorem C2_amended :
    (∀ (v : ConfigValue) (ks1 : List String) (k : String) (ks2 : List String),
      (∀ d x, Instance.get v ks1 = .map d → dictGet d k ≠ some x) →
      Instance.get v (ks1 ++ k :: ks2) = .null) ∧
    (∀ (config : ConfigValue) (key : String) (ks1 : List String) (k : String)
        (ks2 : List String) (w : ConfigValue),
      pySplitChar '.' key = ks1 ++ k :: ks2 →
      List.foldlM getitemStep config ks1 = .ok w →
      (∀ d, w ≠ .map d) →
      Instance.getitem config key = .error .attributeError) ∧
    (∀ (config : ConfigValue) (key : String) (ks1 : List String) (k : String)
        (d' : Doc),
      pySplitChar '.' key = ks1 ++ [k] →
      List.foldlM getitemStep config ks1 = .ok (.map d') →
      Instance.getitem config key = .ok ((dictGet d' k).getD .null)) := by
  refine ⟨?_, ?_, ?_⟩
  · intro v ks1 k ks2 h
    exact get_append_null ks1 v k ks2 h
  · intro config key ks1 k ks2 w hsplit hpre hw
    unfold Instance.getitem
    rw [hsplit, List.foldlM_append, hpre]
    cases w with
    | map d => exact absurd rfl (hw d)
    | str s => rfl
    | num n => rfl
    | bool b => rfl
    | null => rfl
    | list xs => rfl
  · intro config key ks1 k d' hsplit hpre
    unfold Instance.getitem
    rw [hsplit, List.foldlM_append, hpre]
    rfl

/-- Witness for C2 amended at concrete inputs: variadic `get("a", "b")` on
a Document where `a` is a string returns `None`; bracket `["a.b"]` on the
empty Document (missing intermediate key, `None.get`) raises; bracket
`["a.b"]` where `a` holds a string (non-dict intermediate) raises; bracket
`["a.x"]` where `a` holds an empty dict (final segment missing) returns
`None` without error. -/
theorem C2_amended_witness :
    Instance.get (.map [("a", .str "s")]) (["a"] ++ "b" :: []) = .null ∧
    Instance.getitem (.map []) "a.b" = .error .attributeError ∧
    Instance.getitem (.map [("a", .str "s")]) "a.b" =
      .error .attributeError ∧
    Instance.getitem (.map [("a", .map [])]) "a.x" =
      .ok ((dictGet [] "x").getD .null) :=
  ⟨C2_amended.1 (.map [("a", .str "s")]) ["a"] "b" []
      (by
        intro d x hg
        simp [Instance.get, dictGet] at hg),
   C2_amended.2.1 (.map []) "a.b" ["a"] "b" [] .null (by decide) rfl
      (by intro d h; cases h),
   C2_amended.2.1 (.map [("a", .str "s")]) "a.b" ["a"] "b" [] (.str "s")
      (by decide) rfl (by intro d h; cases h),
   C2_amended.2.2 (.map [("a", .map [])]) "a.x" ["a"] "x" [] (by decide)
      rfl⟩

/-- C7: when the file does not exist, the construction-time load succeeds
for any format string, yields the empty Document, and leaves
`last_modified_time` at its initial sentinel `0` (no timestamp recorded);
the no-argument `get()` then returns the empty mapping. -/
theorem C7_missing_file (ext : Ext) (format : String) (hd dbg : Bool)
    (t : Nat) :
    initRun ext ⟨none, t⟩ format hd dbg =
      ({ config := .map [], format := pyUpper format,
         last_modified_time := 0, hot_reloading := hd, debug := dbg },
       none) ∧
    Instance.get (initRun ext ⟨none, t⟩ format hd dbg).1.config [] =
      .map [] := by
  constructor
  · rfl
  · rfl

/-- C1 counterexample: a watcher poll that sees a changed mtime but
unparsable JSON. The claim asserts the last-recorded timestamp stays
unchanged and the polling loop keeps running; in the code `load()` has
already overwritten `self.last_modified_time` (line 48) before the parse
raises, and the uncaught exception ends the `while True` loop, so the
timestamp did change (0 to 5) and the loop is no longer running. -/
theorem C1_counterexample :
    (monitorStep extC ⟨some "oops", 5⟩
        ⟨.map [("a", .str "1")], "JSON", 0, true, false⟩).2 = false ∧
    (monitorStep extC ⟨some "oops", 5⟩
        ⟨.map [("a", .str "1")], "JSON", 0, true, false⟩).1.last_modified_time
      ≠ 0 := by
  constructor
  · rfl
  · decide

/-- C1 amended: when a watcher-triggered reload raises (any load failure),
the Document is indeed left unchanged and nothing reaches the foreground
(the exception dies with the daemon thread), but the last-recorded
timestamp has already been overwritten with the mtime of the failing file,
and the monitor loop terminates — no reload is attempted on later
changes. -/
theorem C1_amended (ext : Ext) (fs : FS) (st : InstanceState)
    (content : String) (e : PyExn)
    (hfile : fs.file = some content)
    (hchanged : fs.mtime ≠ st.last_modified_time)
    (hfail : (loadRun ext fs st).2 = some e) :
    monitorStep ext fs st =
      ({ st with last_modified_time := fs.mtime }, false) ∧
    (monitorStep ext fs st).1.config = st.config := by
  have hload : loadRun ext fs st =
      ({ st with last_modified_time := fs.mtime }, some e) := by
    have hpair : loadRun ext fs st = ((loadRun ext fs st).1, some e) := by
      rw [← hfail]
    have hst1 := loadRun_error_state ext fs st content hfile
      (loadRun ext fs st).1 e hpair
    rw [hpair, hst1]
  have hmain : monitorStep ext fs st =
      ({ st with last_modified_time := fs.mtime }, false) := by
    unfold monitorStep
    rw [hfile]
    dsimp only
    rw [if_pos hchanged, hload]
  exact ⟨hmain, by rw [hmain]⟩

/-- Witness for C1 amended at a concrete input: watcher poll with changed
mtime over unparsable JSON content. -/
theorem C1_amended_witness :
    monitorStep extC ⟨some "bad", 7⟩ ⟨.map [], "JSON", 2, true, true⟩ =
      ({ config := .map [], format := "JSON", last_modified_time := 7,
         hot_reloading := true, debug := true }, false) ∧
    (monitorStep extC ⟨some "bad", 7⟩
        ⟨.map [], "JSON", 2, true, true⟩).1.config = .map [] :=
  C1_amended extC ⟨some "bad", 7⟩ ⟨.map [], "JSON", 2, true, true⟩
    "bad" (.jsonDecodeError "Expecting value: line 1 column 1 (char 0)")
    rfl (by decide) rfl

/-- C3 counterexample: constructing with the unrecognized format
identifier BOGUS while the file does not exist raises nothing at all —
`load()` checks `os.path.exists` first and returns an empty Document
without ever reaching the format dispatch, refuting "raises ... regardless
of whether the configuration file exists". -/
theorem C3_counterexample :
    (initRun extC ⟨none, 0⟩ "BOGUS" false false).2 = none := by
  rfl

/-- C3 amended: with an unrecognized format identifier, construction
succeeds with an empty Document when the file does not exist; when the
file exists, construction raises the `ValueError` only from inside
`load()`, after the file has been stat-ed (the last-modified timestamp is
already recorded) and opened — not before any file I/O, and the exception
is the generic `ValueError`, not a dedicated error class. -/
theorem C3_amended (ext : Ext) (fs : FS) (format : String) (hd dbg : Bool)
    (hbad : pyUpper format ∉
      (["JSON", "YAML", "ENV", "PYTHON", "INI", "TOML"] : List String)) :
    (fs.file = none →
      initRun ext fs format hd dbg =
        ({ config := .map [], format := pyUpper format,
           last_modified_time := 0, hot_reloading := hd, debug := dbg },
         none)) ∧
    (∀ content, fs.file = some content →
      initRun ext fs format hd dbg =
        ({ config := .map [], format := pyUpper format,
           last_modified_time := fs.mtime, hot_reloading := hd,
           debug := dbg },
         some (.valueError ("Unsupported format: " ++ pyUpper format)))) := by
  constructor
  · intro hnone
    unfold initRun loadRun
    rw [hnone]
  · intro content hsome
    unfold initRun loadRun
    rw [hsome]
    dsimp only
    split <;> simp_all

/-- Witness for C3 amended at a concrete input: format xml with an
existing file — construction fails with the ValueError, and the mtime was
read first. -/
theorem C3_amended_witness :
    initRun extC ⟨some "x", 7⟩ "xml" false true =
      ({ config := .map [], format := "XML", last_modified_time := 7,
         hot_reloading := false, debug := true },
       some (.valueError "Unsupported format: XML")) :=
  (C3_amended extC ⟨some "x", 7⟩ "xml" false true (by decide)).2 "x" rfl

/-- C4 counterexample: malformed content for the declared format ENV (a
non-blank, non-comment line with no `=`). The construction-time load does
raise and is fatal, but the exception is the bare `ValueError` of tuple
unpacking — an exception class that identifies neither the ENV format nor
the missing `=` as the cause, refuting "a FormatError that identifies the
format". -/
theorem C4_counterexample :
    (loadRun extC ⟨some "abc", 3⟩ ⟨.map [], "ENV", 0, false, false⟩).2 =
      some (.valueError "not enough values to unpack (expected 2, got 1)") ∧
    pyExnFormat
        (.valueError "not enough values to unpack (expected 2, got 1)") =
      none := by
  constructor
  · rfl
  · rfl

/-- C4 amended: for the library-backed formats (JSON, YAML, TOML, INI) a
malformed file makes the construction-time load raise the format-specific
library exception carrying the underlying cause, fatal to construction;
for ENV the raised exception is a bare `ValueError` naming no format (see
the counterexample). -/
theorem C4_amended (ext : Ext) (fs : FS) (content : String) (hd dbg : Bool)
    (fmtArg : String) (hfile : fs.file = some content) :
    (∀ m, pyUpper fmtArg = "JSON" → ext.jsonLoad content = .error m →
      initRun ext fs fmtArg hd dbg =
        ({ config := .map [], format := "JSON",
           last_modified_time := fs.mtime, hot_reloading := hd,
           debug := dbg }, some (.jsonDecodeError m)) ∧
      pyExnFormat (.jsonDecodeError m) = some "JSON") ∧
    (∀ m, pyUpper fmtArg = "YAML" → ext.yamlLoad content = .error m →
      initRun ext fs fmtArg hd dbg =
        ({ config := .map [], format := "YAML",
           last_modified_time := fs.mtime, hot_reloading := hd,
           debug := dbg }, some (.yamlError m)) ∧
      pyExnFormat (.yamlError m) = some "YAML") ∧
    (∀ m, pyUpper fmtArg = "TOML" → ext.tomlLoad content = .error m →
      initRun ext fs fmtArg hd dbg =
        ({ config := .map [], format := "TOML",
           last_modified_time := fs.mtime, hot_reloading := hd,
           debug := dbg }, some (.tomlDecodeError m)) ∧
      pyExnFormat (.tomlDecodeError m) = some "TOML") ∧
    (∀ m, pyUpper fmtArg = "INI" → ext.iniParse content = .error m →
      initRun ext fs fmtArg hd dbg =
        ({ config := .map [], format := "INI",
           last_modified_time := fs.mtime, hot_reloading := hd,
           debug := dbg }, some (.configParserError m)) ∧
      pyExnFormat (.configParserError m) = some "INI") := by
  refine ⟨?_, ?_, ?_, ?_⟩ <;>
    (intro m hfmt herr
     unfold initRun loadRun
     rw [hfile]
     dsimp only
     rw [hfmt, herr]
     exact ⟨rfl, rfl⟩)

/-- Witness for C4 amended at a concrete input: format json over content
the JSON codec rejects; construction fails with the decode error. -/
theorem C4_amended_witness :
    initRun extC ⟨some "bad", 9⟩ "json" true false =
      ({ config := .map [], format := "JSON", last_modified_time := 9,
         hot_reloading := true, debug := false },
       some (.jsonDecodeError "Expecting value: line 1 column 1 (char 0)")) ∧
    pyExnFormat
        (.jsonDecodeError "Expecting value: line 1 column 1 (char 0)") =
      some "JSON" :=
  (C4_amended extC ⟨some "bad", 9⟩ "bad" true false "json" rfl).1
    "Expecting value: line 1 column 1 (char 0)" rfl rfl

/-- C6: `__setitem__` mutates the Document and then synchronously calls
`save()` before returning: for every Instance whose config is a dict and
whose format is one of the six supported identifiers, the whole updated
Document is serialized by the format writer and the file content is
replaced by exactly that serialization, with no error and no deferred
write — the post-state of `set` already carries the new file content. -/
theorem C6_set_persists (ext : Ext) (st : InstanceState) (fs : FS) (d : Doc)
    (key : String) (v : ConfigValue)
    (hcfg : st.config = .map d)
    (hfmt : st.format = "JSON" ∨ st.format = "YAML" ∨ st.format = "ENV" ∨
            st.format = "PYTHON" ∨ st.format = "INI" ∨ st.format = "TOML") :
    ∃ content,
      formatDump ext st.format (.map (setitemPure d key v)) = .ok content ∧
      setitemRun ext st fs key v =
        ({ st with config := .map (setitemPure d key v) },
         { fs with file := some content }, none) := by
  rcases hfmt with h | h | h | h | h | h <;>
    (have hdump : ∃ c,
        formatDump ext st.format (.map (setitemPure d key v)) = .ok c := by
      rw [h]
      exact ⟨_, rfl⟩
     obtain ⟨c, hc⟩ := hdump
     refine ⟨c, hc, ?_⟩
     unfold setitemRun saveRun
     rw [hcfg]
     dsimp only
     rw [hc])

/-- Witness for C6 at the concrete scenario of the claim:
`set("key", "value")` on an empty JSON Instance — the file afterwards holds
the JSON serialization of the updated Document. -/
theorem C6_set_persists_witness :
    ∃ content,
      formatDump extC "JSON" (.map (setitemPure [] "key" (.str "value"))) =
        .ok content ∧
      setitemRun extC ⟨.map [], "JSON", 0, false, false⟩ ⟨none, 0⟩
          "key" (.str "value") =
        ({ config := .map (setitemPure [] "key" (.str "value")),
           format := "JSON", last_modified_time := 0,
           hot_reloading := false, debug := false },
         { file := some content, mtime := 0 }, none) :=
  C6_set_persists extC ⟨.map [], "JSON", 0, false, false⟩ ⟨none, 0⟩
    [] "key" (.str "value") rfl (Or.inl rfl)

/-- C8: for the three structural formats, whenever the codec of the format
round-trips the Document held by the Instance (that is, the Document lies
in the representable subset of the format), `save()` succeeds, and a fresh
construction-time load from the written file reproduces the Document
exactly. -/
theorem C8_roundtrip (ext : Ext) (st : InstanceState) (fs : FS)
    (v : ConfigValue) (t : Nat) (hd dbg : Bool)
    (hfmt : st.format = "JSON" ∨ st.format = "YAML" ∨ st.format = "TOML")
    (hcfg : st.config = v)
    (hrt : ∀ c, formatDump ext st.format v = .ok c →
      formatParse ext st.format c = .ok v) :
    ∃ c,
      saveRun ext st fs = ({ fs with file := some c }, none) ∧
      initRun ext ⟨some c, t⟩ st.format hd dbg =
        ({ config := v, format := st.format, last_modified_time := t,
           hot_reloading := hd, debug := dbg }, none) := by
  rcases hfmt with h | h | h
  · refine ⟨ext.jsonDump v, ?_, ?_⟩
    · unfold saveRun
      rw [hcfg, h]
      rfl
    · have hp : formatParse ext st.format (ext.jsonDump v) = .ok v :=
        hrt _ (by rw [h]; rfl)
      rw [h] at hp ⊢
      have hp2 : ext.jsonLoad (ext.jsonDump v) = .ok v := hp
      unfold initRun loadRun
      dsimp only
      rw [hp2]
      rfl
  · refine ⟨ext.yamlDump v, ?_, ?_⟩
    · unfold saveRun
      rw [hcfg, h]
      rfl
    · have hp : formatParse ext st.format (ext.yamlDump v) = .ok v :=
        hrt _ (by rw [h]; rfl)
      rw [h] at hp ⊢
      have hp2 : ext.yamlLoad (ext.yamlDump v) = .ok v := hp
      unfold initRun loadRun
      dsimp only
      rw [hp2]
      rfl
  · refine ⟨ext.tomlDump v, ?_, ?_⟩
    · unfold saveRun
      rw [hcfg, h]
      rfl
    · have hp : formatParse ext st.format (ext.tomlDump v) = .ok v :=
        hrt _ (by rw [h]; rfl)
      rw [h] at hp ⊢
      have hp2 : ext.tomlLoad (ext.tomlDump v) = .ok v := hp
      unfold initRun loadRun
      dsimp only
      rw [hp2]
      rfl

/-- Witness for C8 at a concrete input: a JSON Instance holding `docW`,
with the concrete codec `extC` (which round-trips `docW`): save then a
fresh construction-time load reproduces the Document. -/
theorem C8_roundtrip_witness :
    ∃ c,
      saveRun extC ⟨docW, "JSON", 4, false, false⟩ ⟨some "old", 4⟩ =
        ({ file := some c, mtime := 4 }, none) ∧
      initRun extC ⟨some c, 11⟩ "JSON" true false =
        ({ config := docW, format := "JSON", last_modified_time := 11,
           hot_reloading := true, debug := false }, none) :=
  C8_roundtrip extC ⟨docW, "JSON", 4, false, false⟩ ⟨some "old", 4⟩
    docW 11 true false (Or.inl rfl) rfl
    (by
      intro c h
      simp only [formatDump] at h
      injection h with h2
      rw [← h2]
      rfl)

/-- C9: the no-argument `get()` returns the live Document object itself —
the very reference stored in `self.config`, not a copy — so a mutation
made through the returned mapping is visible to every subsequent `get` on
the same Instance, while the file is not written. -/
theorem C9_get_live_reference (s : HeapState) (d : Doc) (k : String)
    (v : ConfigValue) (hroot : s.heap s.configAddr = .map d) :
    (getNoArg s).1 = s ∧
    (getNoArg s).2 = s.configAddr ∧
    readGet (mutateThroughRef s (getNoArg s).2 k v) [k] = v ∧
    (mutateThroughRef s (getNoArg s).2 k v).fileContent = s.fileContent ∧
    readGet (mutateThroughRef s (getNoArg s).2 k v) [] =
      .map (dictSet d k v) := by
  refine ⟨rfl, rfl, ?_, rfl, ?_⟩
  · unfold readGet mutateThroughRef getNoArg
    dsimp only
    rw [if_pos rfl, hroot]
    simp [Instance.get, dictGet_dictSet_self]
  · unfold readGet mutateThroughRef getNoArg
    dsimp only
    rw [if_pos rfl, hroot]
    rfl

/-- Witness for C9 at a concrete input: a heap with the Document at
address 0; writing key x through the reference returned by `get()` is
seen by a subsequent `get("x")`, and the file is untouched. -/
theorem C9_get_live_reference_witness :
    (getNoArg ⟨fun a => if a = 0 then .map [] else .null, 0,
        some "F"⟩).1 =
      ⟨fun a => if a = 0 then .map [] else .null, 0, some "F"⟩ ∧
    (getNoArg ⟨fun a => if a = 0 then .map [] else .null, 0,
        some "F"⟩).2 = 0 ∧
    readGet (mutateThroughRef
        ⟨fun a => if a = 0 then .map [] else .null, 0, some "F"⟩
        (getNoArg ⟨fun a => if a = 0 then .map [] else .null, 0,
          some "F"⟩).2 "x" (.num 1)) ["x"] = .num 1 ∧
    (mutateThroughRef
        ⟨fun a => if a = 0 then .map [] else .null, 0, some "F"⟩
        (getNoArg ⟨fun a => if a = 0 then .map [] else .null, 0,
          some "F"⟩).2 "x" (.num 1)).fileContent = some "F" ∧
    readGet (mutateThroughRef
        ⟨fun a => if a = 0 then .map [] else .null, 0, some "F"⟩
        (getNoArg ⟨fun a => if a = 0 then .map [] else .null, 0,
          some "F"⟩).2 "x" (.num 1)) [] = .map (dictSet [] "x" (.num 1)) :=
  C9_get_live_reference
    ⟨fun a => if a = 0 then .map [] else .null, 0, some "F"⟩
    [] "x" (.num 1) rfl

/-- C10: ENV parsing is total exactly under the stated precondition. If
some line that `load_env` processes (non-blank after stripping, raw text
not starting with `#`) has no `'='`, the load raises the unpack
`ValueError` instead of returning a Document; when every processed line
contains an `'='`, it returns the map built by splitting each processed
(stripped) line on its first `'='`. -/
theorem C10_env_total_iff_eq (lines : List String) :
    ((∃ l ∈ lines, envProcessed l ∧ '=' ∉ (pyStrip l).toList) →
      load_env lines [] =
        .error
          (.valueError "not enough values to unpack (expected 2, got 1)")) ∧
    ((∀ l ∈ lines, envProcessed l → '=' ∈ (pyStrip l).toList) →
      load_env lines [] = .ok (envSpecMap lines)) := by
  constructor
  · intro h
    exact load_env_error lines [] h
  · intro h
    exact load_env_ok lines [] h

/-- Witness for C10 at concrete inputs: a file with a processed line
lacking `'='` raises; a well-formed file (with a comment, a blank line and
a value containing a second `'='`) parses into the described map. -/
theorem C10_env_total_iff_eq_witness :
    load_env ["A=1", "oops"] [] =
      .error
        (.valueError "not enough values to unpack (expected 2, got 1)") ∧
    load_env ["A=1", "# note", "", "B=2=3"] [] =
      .ok (envSpecMap ["A=1", "# note", "", "B=2=3"]) :=
  ⟨(C10_env_total_iff_eq ["A=1", "oops"]).1
      ⟨"oops", by decide, by decide, by decide⟩,
   (C10_env_total_iff_eq ["A=1", "# note", "", "B=2=3"]).2 (by decide)⟩

end Configurationlib
